import Mathlib

/-!
Verification of `newsletter_agent.py`: a shallow embedding of the agent
loop (`create_search_agent`), the three-stage pipeline (`main`), and the
document renderer (`generate_pdf_report`), together with theorems settling
the specification claims.

Modelling conventions:
* Python strings are Lean `String`s; slicing/`replace`/`startswith`/`lower`
  are embedded as executable functions over `List Char` (code points),
  matching the Python per-code-point semantics.
* The chat-completion service and the two web tools are external
  collaborators; they are passed as an explicit environment `Env` of pure
  functions.  A tool invocation that raises is modelled as `Except.error`
  carrying `str(e)`.
* Message `content = ""` models a reply that carried no text; an absent or
  empty `tool_calls` list is modelled as `[]` (both are falsy in Python).
-/

/-- A requested tool call: `tool_call.function.name` and
`tool_call.function.arguments` (a string-to-string mapping). -/
structure ToolCall where
  name : String
  arguments : List (String × String)
deriving DecidableEq

/-- One conversation message: `{role, content, tool_calls}`.  Tool-role and
user/system messages carry no tool calls (`[]`). -/
structure Message where
  role : String
  content : String
  tool_calls : List ToolCall
deriving DecidableEq

/-- The external collaborators of `create_search_agent`: the chat service
(`client.chat`, a function of the messages sent) and the two tools
(`client.web_search`, `client.web_fetch`); a tool returns either
`str(result)` or, when it raises, `Except.error` with the exception text. -/
structure Env where
  chat : List Message → Message
  web_search : String → Except String String
  web_fetch : String → Except String String

/-- Python `s[:n]`: the first `n` code points of `s`. -/
def pyTake (s : String) (n : Nat) : String :=
  String.mk (s.toList.take n)

/-- Embeds the dispatch inside the `try:` block of `create_search_agent`
(lines 116-128 before truncation): run the named tool on its argument,
propagating a raised exception as `Except.error`.  A missing required
argument raises `KeyError` (whose `str` is the quoted key), an unknown tool
name yields the `str` of the error dict. -/
def runTool (env : Env) (tc : ToolCall) : Except String String :=
  if tc.name = "web_search" then
    match tc.arguments.lookup "query" with
    | some q => env.web_search q
    | none => Except.error "\x27query\x27"
  else if tc.name = "web_fetch" then
    match tc.arguments.lookup "url" with
    | some u => env.web_fetch u
    | none => Except.error "\x27url\x27"
  else
    Except.ok ("\x7b\x27error\x27: \x27Unknown tool: " ++ tc.name ++ "\x27\x7d")

/-- The content of the tool-role message appended for one tool call:
`str(result)[:8000]` on success (`result_str` at line 128), or
`Error: ` followed by `str(e)` when the invocation raised (line 139). -/
def invokeTool (env : Env) (tc : ToolCall) : String :=
  match runTool env tc with
  | Except.ok s => pyTake s 8000
  | Except.error e => "Error: " ++ e

/-- The tool-role messages appended for the tool calls requested in one
round, in request order (the `for tool_call in response.message.tool_calls` loop). -/
def toolMessages (env : Env) (tcs : List ToolCall) : List Message :=
  tcs.map (fun tc => Message.mk "tool" (invokeTool env tc) [])

/-- Result of one `create_search_agent` run, instrumented with the final
conversation state and the number of chat-service rounds performed. -/
structure LoopResult where
  final : String
  history : List String
  messages : List Message
  rounds : Nat
deriving DecidableEq

/-- The `while iteration < max_iterations` loop of `create_search_agent`
(lines 57-143), fuel = remaining iterations.  Each round: call the chat
service, append a non-empty reply text to `conversation_history`, append
the reply to `messages`; if tool calls were requested append one tool-role
message per call and continue, otherwise break.  `last` carries the
reply text of the previous round, returned when the cap is reached. -/
def loopAux (env : Env) : Nat → List Message → List String → Nat → String → LoopResult
  | 0, msgs, hist, rounds, last => ⟨last, hist, msgs, rounds⟩
  | fuel + 1, msgs, hist, rounds, last =>
    let response := env.chat msgs
    let hist' := if response.content = "" then hist else hist ++ [response.content]
    let msgs' := msgs ++ [response]
    if response.tool_calls = [] then
      ⟨response.content, hist', msgs', rounds + 1⟩
    else
      loopAux env fuel (msgs' ++ toolMessages env response.tool_calls) hist'
        (rounds + 1) response.content

/-- `max_iterations = 5` (line 54). -/
def max_iterations : Nat := 5

/-- The fixed system message (lines 41-44). -/
def systemMessage : Message :=
  ⟨"system", "You are a tech news analyst. Focus on finding breakthrough news about AI and technology startups from TechCrunch.", []⟩

/-- The initial conversation: system message plus the user message
`f"{context}\n\n{query}" if context else query` (lines 40-49). -/
def initMessages (query context : String) : List Message :=
  [systemMessage,
   ⟨"user", if context = "" then query else context ++ "\n\n" ++ query, []⟩]

/-- `create_search_agent(query, context)` (lines 36-146): run the bounded
tool-call loop from the initial conversation. -/
def create_search_agent (env : Env) (query : String) (context : String := "") : LoopResult :=
  loopAux env max_iterations (initMessages query context) [] 0 ""

/-- Each call to `loopAux` performs at most `fuel` further rounds. -/
theorem loopAux_rounds_le (env : Env) (fuel : Nat) :
    ∀ msgs hist rounds last,
      (loopAux env fuel msgs hist rounds last).rounds ≤ rounds + fuel := by
  induction fuel with
  | zero => intro msgs hist rounds last; simp [loopAux]
  | succ n ih =>
    intro msgs hist rounds last
    simp only [loopAux]
    by_cases h : (env.chat msgs).tool_calls = []
    · simp [h]
    · simp only [h, if_neg, if_false]
      calc (loopAux env n _ _ (rounds + 1) _).rounds ≤ (rounds + 1) + n :=
            ih _ _ _ _
        _ ≤ rounds + (n + 1) := by omega

/-- A stub chat service that requests a `web_search` tool call on every
round; its tools always succeed. -/
def alwaysToolEnv : Env where
  chat := fun _ => ⟨"assistant", "searching", [⟨"web_search", [("query", "ai news")]⟩]⟩
  web_search := fun _ => Except.ok "result"
  web_fetch := fun _ => Except.ok "page"

/-- C1: every `create_search_agent` conversation performs at most
`max_iterations = 5` chat-service rounds, and a chat service that requests
a tool call on every round is forced through exactly 5 rounds before the
function returns. -/
theorem create_search_agent_round_cap :
    (∀ env query context, (create_search_agent env query context).rounds ≤ 5) ∧
    (create_search_agent alwaysToolEnv "find news" "").rounds = 5 := by
  constructor
  · intro env query context
    have h := loopAux_rounds_le env max_iterations (initMessages query context) [] 0 ""
    simpa [create_search_agent, max_iterations] using h
  · rfl

/-- A stub environment whose chat service requests one `web_search` call
each round and whose search tool always raises with text `boom`. -/
def errEnv : Env where
  chat := fun _ => ⟨"assistant", "", [⟨"web_search", [("query", "x")]⟩]⟩
  web_search := fun _ => Except.error "boom"
  web_fetch := fun _ => Except.ok ""

/-- C2: a failure raised while invoking a requested tool is caught for that
single call (lines 135-140): the content appended for it is
`"Error: " ++ e`, a tool-role message with that content is among the
messages appended this round, and the loop proceeds to the next round with
those messages in the conversation.  No failure escapes: `invokeTool` and
`loopAux` are total functions. -/
theorem create_search_agent_tool_error_caught (env : Env) (msgs : List Message)
    (hist : List String) (rounds : Nat) (last : String) (fuel : Nat)
    (tc : ToolCall) (e : String)
    (hmem : tc ∈ (env.chat msgs).tool_calls)
    (herr : runTool env tc = Except.error e) :
    invokeTool env tc = "Error: " ++ e ∧
    Message.mk "tool" ("Error: " ++ e) [] ∈ toolMessages env (env.chat msgs).tool_calls ∧
    loopAux env (fuel + 1) msgs hist rounds last =
      loopAux env fuel
        ((msgs ++ [env.chat msgs]) ++ toolMessages env (env.chat msgs).tool_calls)
        (if (env.chat msgs).content = "" then hist else hist ++ [(env.chat msgs).content])
        (rounds + 1) (env.chat msgs).content := by
  have hinv : invokeTool env tc = "Error: " ++ e := by
    simp [invokeTool, herr]
  have hne : (env.chat msgs).tool_calls ≠ [] := List.ne_nil_of_mem hmem
  refine ⟨hinv, ?_, ?_⟩
  · have : Message.mk "tool" (invokeTool env tc) [] ∈ toolMessages env (env.chat msgs).tool_calls :=
      List.mem_map_of_mem _ hmem
    rwa [hinv] at this
  · simp only [loopAux, hne, if_neg, if_false]

/-- C2 witness: the theorem applied to `errEnv` at the initial conversation
of query `news`, with both hypotheses discharged concretely. -/
theorem create_search_agent_tool_error_caught_witness :
    (⟨"web_search", [("query", "x")]⟩ : ToolCall) ∈ (errEnv.chat (initMessages "news" "")).tool_calls ∧
    runTool errEnv ⟨"web_search", [("query", "x")]⟩ = Except.error "boom" ∧
    invokeTool errEnv ⟨"web_search", [("query", "x")]⟩ = "Error: " ++ "boom" :=
  ⟨by decide, rfl,
    (create_search_agent_tool_error_caught errEnv (initMessages "news" "") [] 0 "" 4
      ⟨"web_search", [("query", "x")]⟩ "boom" (by decide) rfl).1⟩

/-- A stub chat service that never requests tool calls. -/
def noToolEnv : Env where
  chat := fun _ => ⟨"assistant", "done", []⟩
  web_search := fun _ => Except.ok ""
  web_fetch := fun _ => Except.ok ""

/-- C4: if the reply of a round requests no tool calls the loop returns
immediately after that round (first conjunct); if it does request tool
calls and the cap is not yet reached, the loop continues into the next
round (second conjunct) — so no-tool-calls and the cap are the only
termination conditions.  A chat service returning no tool calls on round 1
terminates after exactly 1 round (third conjunct). -/
theorem create_search_agent_stop_conditions :
    (∀ (env : Env) msgs hist rounds last fuel,
      (env.chat msgs).tool_calls = [] →
      loopAux env (fuel + 1) msgs hist rounds last =
        ⟨(env.chat msgs).content,
         (if (env.chat msgs).content = "" then hist else hist ++ [(env.chat msgs).content]),
         msgs ++ [env.chat msgs], rounds + 1⟩) ∧
    (∀ (env : Env) msgs hist rounds last fuel,
      (env.chat msgs).tool_calls ≠ [] →
      loopAux env (fuel + 1) msgs hist rounds last =
        loopAux env fuel
          ((msgs ++ [env.chat msgs]) ++ toolMessages env (env.chat msgs).tool_calls)
          (if (env.chat msgs).content = "" then hist else hist ++ [(env.chat msgs).content])
          (rounds + 1) (env.chat msgs).content) ∧
    (create_search_agent noToolEnv "q" "").rounds = 1 := by
  refine ⟨?_, ?_, rfl⟩
  · intro env msgs hist rounds last fuel h
    simp only [loopAux, h, if_pos, if_true]
  · intro env msgs hist rounds last fuel h
    simp only [loopAux, h, if_neg, if_false]

/-- C4 witness: the first conjunct applied to `noToolEnv` at the initial
conversation, fuel 4, with the hypothesis discharged concretely. -/
theorem create_search_agent_stop_conditions_witness :
    (noToolEnv.chat (initMessages "q" "")).tool_calls = [] ∧
    loopAux noToolEnv (4 + 1) (initMessages "q" "") [] 0 "" =
      ⟨(noToolEnv.chat (initMessages "q" "")).content,
       (if (noToolEnv.chat (initMessages "q" "")).content = "" then ([] : List String)
        else [] ++ [(noToolEnv.chat (initMessages "q" "")).content]),
       initMessages "q" "" ++ [noToolEnv.chat (initMessages "q" "")], 0 + 1⟩ :=
  ⟨rfl, create_search_agent_stop_conditions.1 noToolEnv (initMessages "q" "") [] 0 "" 4 rfl⟩

/-- The sequence of chat-service replies produced by a run of the loop
with the given fuel, starting from the given conversation. -/
def loopTrace (env : Env) : Nat → List Message → List Message
  | 0, _ => []
  | fuel + 1, msgs =>
    let response := env.chat msgs
    if response.tool_calls = [] then [response]
    else response :: loopTrace env fuel
      ((msgs ++ [response]) ++ toolMessages env response.tool_calls)

/-- The content of the last message of a list, or a default for `[]`. -/
def lastContent : List Message → String → String
  | [], d => d
  | [m], _ => m.content
  | _ :: m :: rest, d => lastContent (m :: rest) d

/-- On a non-empty list, `lastContent` ignores its default. -/
theorem lastContent_cons (m : Message) (l : List Message) (d d' : String) :
    lastContent (m :: l) d = lastContent (m :: l) d' := by
  induction l generalizing m with
  | nil => rfl
  | cons m' rest ih => simpa [lastContent] using ih m'

/-- Peeling the head of a non-trivial `lastContent`. -/
theorem lastContent_cons_eq (m : Message) (l : List Message) (d : String) :
    lastContent (m :: l) d = lastContent l m.content := by
  cases l with
  | nil => rfl
  | cons m' rest => exact lastContent_cons m' rest d m.content

/-- The loop result, expressed against the trace of chat replies: the
final text is the content of the last reply (default = the `last` accumulator)
and the history extends `hist` with the non-empty reply contents in
order. -/
theorem loopAux_trace (env : Env) (fuel : Nat) :
    ∀ msgs hist rounds last,
      (loopAux env fuel msgs hist rounds last).final
        = lastContent (loopTrace env fuel msgs) last ∧
      (loopAux env fuel msgs hist rounds last).history
        = hist ++ ((loopTrace env fuel msgs).map Message.content).filter (fun s => s != "") := by
  induction fuel with
  | zero => intro msgs hist rounds last; simp [loopAux, loopTrace, lastContent]
  | succ n ih =>
    intro msgs hist rounds last
    simp only [loopAux, loopTrace]
    by_cases h : (env.chat msgs).tool_calls = []
    · simp only [h, if_pos, if_true]
      constructor
      · rfl
      · by_cases hc : (env.chat msgs).content = ""
        · simp [hc]
        · simp [hc]
    · simp only [h, if_neg, if_false]
      have ihm := ih ((msgs ++ [env.chat msgs]) ++ toolMessages env (env.chat msgs).tool_calls)
        (if (env.chat msgs).content = "" then hist else hist ++ [(env.chat msgs).content])
        (rounds + 1) (env.chat msgs).content
      refine ⟨ihm.1.trans ?_, ihm.2.trans ?_⟩
      · rw [lastContent_cons_eq]
      · by_cases hc : (env.chat msgs).content = ""
        · simp [hc]
        · simp [hc]

/-- C3: `create_search_agent` returns the text of the last chat-service
reply (the empty string when that reply carried no text, content `""`
being the model of an absent text), together with the non-empty reply
texts accumulated in order of occurrence. -/
theorem create_search_agent_final_history (env : Env) (query context : String) :
    (create_search_agent env query context).final
      = lastContent (loopTrace env max_iterations (initMessages query context)) "" ∧
    (create_search_agent env query context).history
      = ((loopTrace env max_iterations (initMessages query context)).map
          Message.content).filter (fun s => s != "") := by
  have h := loopAux_trace env max_iterations (initMessages query context) [] 0 ""
  simpa [create_search_agent] using h

/-- An 8000-character exception text. -/
def longError : String := String.mk (List.replicate 8000 'x')

/-- A stub environment whose chat service requests one `web_search` call on
round 1 and stops on round 2, and whose search tool raises with an
8000-character message. -/
def longErrEnv : Env where
  chat := fun msgs =>
    if msgs.length ≤ 2 then ⟨"assistant", "", [⟨"web_search", [("query", "q")]⟩]⟩
    else ⟨"assistant", "done", []⟩
  web_search := fun _ => Except.error longError
  web_fetch := fun _ => Except.ok ""

/-- C5 counterexample: the error path (line 139) appends
`Error: ` followed by `str(e)` without truncation, so a failing tool puts a
tool-role message of length 8007 > 8000 into the conversation: the claimed
bound does not hold for every tool-role message ever added. -/
theorem tool_message_cap_counterexample :
    ∃ m ∈ (create_search_agent longErrEnv "q" "").messages,
      m.role = "tool" ∧ 8000 < m.content.length := by
  refine ⟨⟨"tool", "Error: " ++ longError, []⟩, ?_, rfl, ?_⟩
  · have hmsg : (create_search_agent longErrEnv "q" "").messages =
        [systemMessage, ⟨"user", "q", []⟩,
         ⟨"assistant", "", [⟨"web_search", [("query", "q")]⟩]⟩,
         ⟨"tool", "Error: " ++ longError, []⟩,
         ⟨"assistant", "done", []⟩] := rfl
    rw [hmsg]
    exact List.mem_cons_of_mem _ (List.mem_cons_of_mem _ (List.mem_cons_of_mem _
      (List.mem_cons_self _ _)))
  · have h1 : ("Error: " : String).length = 7 := rfl
    have h2 : longError.length = 8000 := by
      show (String.mk (List.replicate 8000 'x')).length = 8000
      rw [String.mk_length, List.length_replicate]
    rw [String.length_append, h1, h2]
    omega

/-- C5 amended: every tool-role message produced from a SUCCESSFUL tool
invocation carries `str(result)[:8000]` (line 128), hence content length
at most 8000, and exactly 8000 whenever the textual representation was at
least that long; messages recording a failed invocation are exempt. -/
theorem tool_result_truncation (env : Env) (tc : ToolCall) (s : String)
    (h : runTool env tc = Except.ok s) :
    invokeTool env tc = pyTake s 8000 ∧
    (invokeTool env tc).length ≤ 8000 ∧
    (8000 ≤ s.length → (invokeTool env tc).length = 8000) := by
  have hinv : invokeTool env tc = pyTake s 8000 := by simp [invokeTool, h]
  have hlist : s.toList.length = s.length := rfl
  have hlen : (pyTake s 8000).length = min 8000 s.length := by
    simp [pyTake]
  refine ⟨hinv, ?_, ?_⟩
  · rw [hinv, hlen]; exact min_le_left _ _
  · intro hs; rw [hinv, hlen]; omega

/-- A 9000-character successful tool result. -/
def bigString : String := String.mk (List.replicate 9000 'a')

/-- A stub environment whose search tool succeeds with `bigString`. -/
def bigOkEnv : Env where
  chat := fun _ => ⟨"assistant", "done", []⟩
  web_search := fun _ => Except.ok bigString
  web_fetch := fun _ => Except.ok ""

/-- C5 amended witness: the truncation theorem applied at a concrete
9000-character successful result, the hypothesis discharged by `rfl`. -/
theorem tool_result_truncation_witness :
    runTool bigOkEnv ⟨"web_search", [("query", "x")]⟩ = Except.ok bigString ∧
    invokeTool bigOkEnv ⟨"web_search", [("query", "x")]⟩ = pyTake bigString 8000 :=
  ⟨rfl, (tool_result_truncation bigOkEnv ⟨"web_search", [("query", "x")]⟩ bigString rfl).1⟩

/-- Python `s.replace(pat, rep)` on code-point lists: replace the leftmost
occurrences of `pat` non-overlappingly, left to right.  `fuel` bounds the
recursion; with `fuel ≥ s.length` it never runs out, since a match consumes
at least one character of a non-empty pattern. -/
def pyReplaceAux (pat rep : List Char) : Nat → List Char → List Char
  | _, [] => []
  | 0, s => s
  | fuel + 1, c :: rest =>
    if pat ≠ [] ∧ pat.isPrefixOf (c :: rest) then
      rep ++ pyReplaceAux pat rep fuel ((c :: rest).drop pat.length)
    else
      c :: pyReplaceAux pat rep fuel rest

/-- Python `s.replace(pat, rep)` on strings. -/
def pyReplace (s pat rep : String) : String :=
  String.mk (pyReplaceAux pat.toList rep.toList s.toList.length s.toList)

/-- Python `s.startswith(p)`. -/
def pyStartsWith (s p : String) : Bool :=
  p.toList.isPrefixOf s.toList

/-- Python `s.lower()` (per-code-point lowering). -/
def pyLower (s : String) : String :=
  String.mk (s.toList.map Char.toLower)

/-- Python `s.strip()`: drop whitespace from both ends. -/
def pyStrip (s : String) : String :=
  String.mk (((s.toList.dropWhile Char.isWhitespace).reverse.dropWhile
    Char.isWhitespace).reverse)

/-- Every element of a Boolean-checked prefix is an element of the list. -/
theorem mem_of_isPrefixOf {pat l : List Char} (h : pat.isPrefixOf l = true) :
    ∀ {x : Char}, x ∈ pat → x ∈ l := by
  induction pat generalizing l with
  | nil => intro x hx; cases hx
  | cons a as ih =>
    cases l with
    | nil => simp [List.isPrefixOf] at h
    | cons b bs =>
      simp only [List.isPrefixOf, Bool.and_eq_true, beq_iff_eq] at h
      intro x hx
      rcases List.mem_cons.1 hx with h1 | h1
      · exact h1 ▸ h.1 ▸ List.mem_cons_self b bs
      · exact List.mem_cons_of_mem b (ih h.2 h1)

/-- A character absent from the input and from the replacement is absent
from the output of `pyReplaceAux`. -/
theorem pyReplaceAux_not_mem (c : Char) (pat rep : List Char) (hrep : c ∉ rep) :
    ∀ fuel (s : List Char), c ∉ s → c ∉ pyReplaceAux pat rep fuel s := by
  intro fuel
  induction fuel with
  | zero =>
    intro s hs
    cases s with
    | nil => simp [pyReplaceAux]
    | cons a rest => simpa [pyReplaceAux] using hs
  | succ n ih =>
    intro s hs
    cases s with
    | nil => simp [pyReplaceAux]
    | cons a rest =>
      by_cases h : pat ≠ [] ∧ pat.isPrefixOf (a :: rest)
      · rw [pyReplaceAux, if_pos h]
        intro hmem
        rcases List.mem_append.1 hmem with h1 | h1
        · exact hrep h1
        · exact ih _ (fun hm => hs (List.drop_subset _ _ hm)) h1
      · rw [pyReplaceAux, if_neg h]
        intro hmem
        rcases List.mem_cons.1 hmem with h1 | h1
        · exact hs (h1 ▸ List.mem_cons_self a rest)
        · exact ih rest (fun hm => hs (List.mem_cons_of_mem a hm)) h1

/-- Replacing a single-character pattern by the empty string removes every
occurrence of that character, given enough fuel. -/
theorem pyReplaceAux_single_not_mem (c : Char) :
    ∀ fuel (s : List Char), s.length ≤ fuel → c ∉ pyReplaceAux [c] [] fuel s := by
  intro fuel
  induction fuel with
  | zero =>
    intro s hlen
    have : s = [] := List.eq_nil_of_length_eq_zero (Nat.le_zero.1 hlen)
    subst this
    simp [pyReplaceAux]
  | succ n ih =>
    intro s hlen
    cases s with
    | nil => simp [pyReplaceAux]
    | cons a rest =>
      by_cases hac : a = c
      · have hcond : ([c] : List Char) ≠ [] ∧ ([c] : List Char).isPrefixOf (a :: rest) := by
          subst hac
          exact ⟨by simp, by simp [List.isPrefixOf]⟩
        rw [pyReplaceAux, if_pos hcond]
        have hlen' : rest.length ≤ n := by
          simpa using Nat.succ_le_succ_iff.1 hlen
        simpa using ih rest hlen'
      · have hcond : ¬(([c] : List Char) ≠ [] ∧ ([c] : List Char).isPrefixOf (a :: rest)) := by
          intro hco
          have := hco.2
          simp only [List.isPrefixOf, Bool.and_eq_true, beq_iff_eq] at this
          exact hac this.1.symm
        rw [pyReplaceAux, if_neg hcond]
        intro hmem
        rcases List.mem_cons.1 hmem with h1 | h1
        · exact hac h1.symm
        · have hlen' : rest.length ≤ n := by
            simpa using Nat.succ_le_succ_iff.1 hlen
          exact ih rest hlen' h1

/-- Replacement is the identity when some pattern character does not occur
in the input. -/
theorem pyReplaceAux_id (c : Char) (pat rep : List Char) (hc : c ∈ pat) :
    ∀ fuel (s : List Char), c ∉ s → pyReplaceAux pat rep fuel s = s := by
  intro fuel
  induction fuel with
  | zero =>
    intro s _
    cases s with
    | nil => rfl
    | cons a rest => rfl
  | succ n ih =>
    intro s hs
    cases s with
    | nil => rfl
    | cons a rest =>
      have hcond : ¬(pat ≠ [] ∧ pat.isPrefixOf (a :: rest)) := by
        intro hco
        exact hs (mem_of_isPrefixOf hco.2 hc)
      rw [pyReplaceAux, if_neg hcond]
      have : c ∉ rest := fun hm => hs (List.mem_cons_of_mem a hm)
      rw [ih rest this]

/-- String form of `pyReplaceAux_single_not_mem`. -/
theorem not_mem_pyReplace_single (c : Char) (s : String) :
    c ∉ (pyReplace s (String.mk [c]) "").toList := by
  show c ∉ pyReplaceAux [c] [] s.toList.length s.toList
  exact pyReplaceAux_single_not_mem c _ _ (le_refl _)

/-- String form of `pyReplaceAux_not_mem`. -/
theorem not_mem_pyReplace (c : Char) (s pat rep : String) (hrep : c ∉ rep.toList)
    (hs : c ∉ s.toList) : c ∉ (pyReplace s pat rep).toList := by
  show c ∉ pyReplaceAux pat.toList rep.toList s.toList.length s.toList
  exact pyReplaceAux_not_mem c _ _ hrep _ _ hs

/-- String form of `pyReplaceAux_id`. -/
theorem pyReplace_id (c : Char) (s pat rep : String) (hc : c ∈ pat.toList)
    (hs : c ∉ s.toList) : pyReplace s pat rep = s := by
  show String.mk (pyReplaceAux pat.toList rep.toList s.toList.length s.toList) = s
  rw [pyReplaceAux_id c _ _ hc _ _ hs]
  rfl

/-- A document element kind (`title_style`, `heading_style`, `body_style`,
`Spacer`). -/
inductive ElemKind
  | title
  | heading
  | body
  | spacer
deriving DecidableEq

/-- One styled flowable appended to `elements` in `generate_pdf_report`. -/
structure DocElement where
  kind : ElemKind
  text : String
deriving DecidableEq

/-- The markdown clean-up of `generate_pdf_report` (lines 273-279): delete
heading markers, emphasis markers, and link bracket/parenthesis
characters, in source order. -/
def cleanMarkdown (t : String) : String :=
  let t1 := pyReplace (pyReplace (pyReplace t "###" "") "##" "") "#" ""
  let t2 := pyReplace (pyReplace t1 "**" "") "*" ""
  pyReplace (pyReplace (pyReplace (pyReplace t2 "[" "") "]" "") "(" "") ")" ""

/-- The heading lead-in tokens of line 283. -/
def headingTokens : List String := ["title:", "source:", "why it"]

/-- `any(text.lower().startswith(h) for h in [...])` (line 283). -/
def isHeadingText (text : String) : Bool :=
  headingTokens.any (fun h => pyStartsWith (pyLower text) h)

/-- Processing of one paragraph of `generate_pdf_report` (lines 268-292):
skip it when blank, otherwise strip markup, pick heading or body style by
the lead-in tokens, then convert leading and mid-paragraph `"- "` bullet
markers to the bullet glyph (the glyph is the literal three-character
sequence found in the source file). -/
def renderParagraph (para : String) : Option DocElement :=
  if pyStrip para = "" then none
  else
    let text := cleanMarkdown (pyStrip para)
    let style := if isHeadingText text then ElemKind.heading else ElemKind.body
    let text := if pyStartsWith text "- " then
        pyReplace ("â€¢ " ++ text.drop 2) "\n- " "\nâ€¢ "
      else text
    some ⟨style, text⟩

/-- `generate_pdf_report` (lines 215-297), modelled up to the flowable
list handed to `doc.build`: the fixed title, the dated subtitle, a spacer,
then one element per non-blank paragraph of the content (split on
`"\n\n"`). -/
def generate_pdf_elements (today content : String) : List DocElement :=
  [⟨ElemKind.title, "TechCrunch AI & Startup Newsletter"⟩,
   ⟨ElemKind.heading, "Weekly Report - " ++ today⟩,
   ⟨ElemKind.spacer, ""⟩]
  ++ (content.splitOn "\n\n").filterMap renderParagraph

/-- C10: the markup-stripping step leaves no occurrence of the characters
`#`, `*`, `[`, `]`, `(`, `)` in its output, and is therefore idempotent:
stripping a second time changes nothing. -/
theorem cleanMarkdown_strip_idempotent (s : String) :
    (∀ c ∈ (cleanMarkdown s).toList,
      c ≠ '#' ∧ c ≠ '*' ∧ c ≠ '[' ∧ c ≠ ']' ∧ c ≠ '(' ∧ c ≠ ')') ∧
    cleanMarkdown (cleanMarkdown s) = cleanMarkdown s := by
  have hemp : ∀ d : Char, d ∉ ("" : String).toList := by intro d; simp
  set t3 := pyReplace (pyReplace (pyReplace s "###" "") "##" "") "#" "" with ht3
  set t4 := pyReplace t3 "**" "" with ht4
  set t5 := pyReplace t4 "*" "" with ht5
  set t6 := pyReplace t5 "[" "" with ht6
  set t7 := pyReplace t6 "]" "" with ht7
  set t8 := pyReplace t7 "(" "" with ht8
  set t9 := pyReplace t8 ")" "" with ht9
  have hcm : cleanMarkdown s = t9 := rfl
  have hh3 : '#' ∉ t3.toList := not_mem_pyReplace_single '#' _
  have hh4 : '#' ∉ t4.toList := not_mem_pyReplace '#' _ _ _ (hemp _) hh3
  have hh5 : '#' ∉ t5.toList := not_mem_pyReplace '#' _ _ _ (hemp _) hh4
  have hh6 : '#' ∉ t6.toList := not_mem_pyReplace '#' _ _ _ (hemp _) hh5
  have hh7 : '#' ∉ t7.toList := not_mem_pyReplace '#' _ _ _ (hemp _) hh6
  have hh8 : '#' ∉ t8.toList := not_mem_pyReplace '#' _ _ _ (hemp _) hh7
  have hh9 : '#' ∉ t9.toList := not_mem_pyReplace '#' _ _ _ (hemp _) hh8
  have hs5 : '*' ∉ t5.toList := not_mem_pyReplace_single '*' _
  have hs6 : '*' ∉ t6.toList := not_mem_pyReplace '*' _ _ _ (hemp _) hs5
  have hs7 : '*' ∉ t7.toList := not_mem_pyReplace '*' _ _ _ (hemp _) hs6
  have hs8 : '*' ∉ t8.toList := not_mem_pyReplace '*' _ _ _ (hemp _) hs7
  have hs9 : '*' ∉ t9.toList := not_mem_pyReplace '*' _ _ _ (hemp _) hs8
  have hl6 : '[' ∉ t6.toList := not_mem_pyReplace_single '[' _
  have hl7 : '[' ∉ t7.toList := not_mem_pyReplace '[' _ _ _ (hemp _) hl6
  have hl8 : '[' ∉ t8.toList := not_mem_pyReplace '[' _ _ _ (hemp _) hl7
  have hl9 : '[' ∉ t9.toList := not_mem_pyReplace '[' _ _ _ (hemp _) hl8
  have hr7 : ']' ∉ t7.toList := not_mem_pyReplace_single ']' _
  have hr8 : ']' ∉ t8.toList := not_mem_pyReplace ']' _ _ _ (hemp _) hr7
  have hr9 : ']' ∉ t9.toList := not_mem_pyReplace ']' _ _ _ (hemp _) hr8
  have hp8 : '(' ∉ t8.toList := not_mem_pyReplace_single '(' _
  have hp9 : '(' ∉ t9.toList := not_mem_pyReplace '(' _ _ _ (hemp _) hp8
  have hq9 : ')' ∉ t9.toList := not_mem_pyReplace_single ')' _
  constructor
  · intro c hc
    rw [hcm] at hc
    exact ⟨fun he => hh9 (he ▸ hc), fun he => hs9 (he ▸ hc), fun he => hl9 (he ▸ hc),
      fun he => hr9 (he ▸ hc), fun he => hp9 (he ▸ hc), fun he => hq9 (he ▸ hc)⟩
  · rw [hcm]
    have e1 : pyReplace t9 "###" "" = t9 := pyReplace_id '#' _ _ _ (by decide) hh9
    have e2 : pyReplace t9 "##" "" = t9 := pyReplace_id '#' _ _ _ (by decide) hh9
    have e3 : pyReplace t9 "#" "" = t9 := pyReplace_id '#' _ _ _ (by decide) hh9
    have e4 : pyReplace t9 "**" "" = t9 := pyReplace_id '*' _ _ _ (by decide) hs9
    have e5 : pyReplace t9 "*" "" = t9 := pyReplace_id '*' _ _ _ (by decide) hs9
    have e6 : pyReplace t9 "[" "" = t9 := pyReplace_id '[' _ _ _ (by decide) hl9
    have e7 : pyReplace t9 "]" "" = t9 := pyReplace_id ']' _ _ _ (by decide) hr9
    have e8 : pyReplace t9 "(" "" = t9 := pyReplace_id '(' _ _ _ (by decide) hp9
    have e9 : pyReplace t9 ")" "" = t9 := pyReplace_id ')' _ _ _ (by decide) hq9
    show pyReplace (pyReplace (pyReplace (pyReplace (pyReplace (pyReplace (pyReplace
      (pyReplace (pyReplace t9 "###" "") "##" "") "#" "") "**" "") "*" "") "[" "")
      "]" "") "(" "") ")" "" = t9
    rw [e1, e2, e3, e4, e5, e6, e7, e8, e9]

/-- `isHeadingText` unfolded to the three startswith tests of line 283. -/
theorem isHeadingText_iff (t : String) :
    isHeadingText t = true ↔
      (pyStartsWith (pyLower t) "title:" = true ∨
       pyStartsWith (pyLower t) "source:" = true ∨
       pyStartsWith (pyLower t) "why it" = true) := by
  simp [isHeadingText, headingTokens]

/-- C7: a non-blank paragraph is emitted as a heading element exactly when
its stripped text, lower-cased, starts with one of `title:`, `source:`,
`why it`; otherwise it is emitted as a body element. -/
theorem renderParagraph_heading_iff (para : String) (el : DocElement)
    (h : renderParagraph para = some el) :
    (el.kind = ElemKind.heading ∨ el.kind = ElemKind.body) ∧
    (el.kind = ElemKind.heading ↔
      (pyStartsWith (pyLower (cleanMarkdown (pyStrip para))) "title:" = true ∨
       pyStartsWith (pyLower (cleanMarkdown (pyStrip para))) "source:" = true ∨
       pyStartsWith (pyLower (cleanMarkdown (pyStrip para))) "why it" = true)) ∧
    (el.kind = ElemKind.body ↔
      ¬(pyStartsWith (pyLower (cleanMarkdown (pyStrip para))) "title:" = true ∨
        pyStartsWith (pyLower (cleanMarkdown (pyStrip para))) "source:" = true ∨
        pyStartsWith (pyLower (cleanMarkdown (pyStrip para))) "why it" = true)) := by
  by_cases hp : pyStrip para = ""
  · simp [renderParagraph, hp] at h
  · rw [renderParagraph, if_neg hp] at h
    have hel := (Option.some.inj h).symm
    by_cases hb : isHeadingText (cleanMarkdown (pyStrip para)) = true
    · have hk : el.kind = ElemKind.heading := by rw [hel]; simp [hb]
      have hd := (isHeadingText_iff (cleanMarkdown (pyStrip para))).1 hb
      refine ⟨Or.inl hk, ?_, ?_⟩
      · exact ⟨fun _ => hd, fun _ => hk⟩
      · constructor
        · intro hbody; rw [hk] at hbody; cases hbody
        · intro hnd; exact absurd hd hnd
    · have hk : el.kind = ElemKind.body := by
        rw [hel]; simp [hb]
      have hnd : ¬(pyStartsWith (pyLower (cleanMarkdown (pyStrip para))) "title:" = true ∨
          pyStartsWith (pyLower (cleanMarkdown (pyStrip para))) "source:" = true ∨
          pyStartsWith (pyLower (cleanMarkdown (pyStrip para))) "why it" = true) :=
        fun hd => hb ((isHeadingText_iff _).2 hd)
      refine ⟨Or.inr hk, ?_, ?_⟩
      · constructor
        · intro hhead; rw [hk] at hhead; cases hhead
        · intro hd; exact absurd hd hnd
      · exact ⟨fun _ => hnd, fun _ => hk⟩

/-- C7 witness: the classification theorem applied to the concrete
paragraph `Title: Example`, its hypothesis discharged by evaluation. -/
theorem renderParagraph_heading_iff_witness :
    renderParagraph "Title: Example" = some ⟨ElemKind.heading, "Title: Example"⟩ ∧
    ((⟨ElemKind.heading, "Title: Example"⟩ : DocElement).kind = ElemKind.heading ∨
     (⟨ElemKind.heading, "Title: Example"⟩ : DocElement).kind = ElemKind.body) :=
  ⟨by decide, (renderParagraph_heading_iff "Title: Example" ⟨ElemKind.heading, "Title: Example"⟩
    (by decide)).1⟩

/-- C8: for a non-blank paragraph whose stripped text begins with the
dash-space bullet marker, the emitted element carries that text with the
leading marker replaced by the bullet glyph and every line-break-plus-`"- "`
occurrence likewise converted; the style is unaffected. -/
theorem renderParagraph_bullet_conversion (para : String)
    (hne : ¬pyStrip para = "")
    (hb : pyStartsWith (cleanMarkdown (pyStrip para)) "- " = true) :
    renderParagraph para =
      some ⟨(if isHeadingText (cleanMarkdown (pyStrip para)) then ElemKind.heading
             else ElemKind.body),
            pyReplace ("â€¢ " ++ (cleanMarkdown (pyStrip para)).drop 2) "\n- " "\nâ€¢ "⟩ := by
  rw [renderParagraph, if_neg hne]
  simp only [hb, if_pos, if_true]

/-- C8 witness: the bullet theorem applied to the concrete paragraph
`- point one\n- point two`, both hypotheses discharged by evaluation. -/
theorem renderParagraph_bullet_conversion_witness :
    ¬pyStrip "- point one\n- point two" = "" ∧
    pyStartsWith (cleanMarkdown (pyStrip "- point one\n- point two")) "- " = true ∧
    renderParagraph "- point one\n- point two" =
      some ⟨(if isHeadingText (cleanMarkdown (pyStrip "- point one\n- point two"))
             then ElemKind.heading else ElemKind.body),
            pyReplace ("â€¢ " ++ (cleanMarkdown (pyStrip "- point one\n- point two")).drop 2)
              "\n- " "\nâ€¢ "⟩ :=
  ⟨by decide, by decide,
   renderParagraph_bullet_conversion "- point one\n- point two" (by decide) (by decide)⟩

/-- Fixed query of the Gather stage (line 161). -/
def gatherQuery : String :=
  "site:techcrunch.com artificial intelligence startups latest news"

/-- Fixed context instruction of the Gather stage (line 165). -/
def gatherContext : String :=
  "Find the most important AI and startup news from TechCrunch in the last week. Focus on breakthrough announcements, funding rounds, and major product launches."

/-- Fixed query of the Rank stage (lines 179-187). -/
def rankQuery : String :=
  "Based on the news you found, identify the TOP 5 most important and breakthrough stories.\n    \n    For each story, provide:\n    1. Title\n    2. Brief summary (2-3 sentences)\n    3. Why it\x27s important\n    4. Source URL\n    \n    Focus on: Major funding announcements, breakthrough AI technologies, significant partnerships, and disruptive startups."

/-- Fixed query of the Elaborate stage (lines 202-208). -/
def detailedQuery : String :=
  "For each of the top stories you identified, create a detailed summary (4-5 sentences) that includes:\n    - What happened\n    - Who is involved\n    - Why it matters for the AI and startup ecosystem\n    - Potential impact\n    \n    Format each story clearly with the title, URL, and detailed summary."

/-- `gather_techcrunch_news()` (lines 149-168): stage 1, fixed query and
context, returns the final agent text. -/
def gather_techcrunch_news (env : Env) : String :=
  (create_search_agent env gatherQuery gatherContext).final

/-- `analyze_and_rank_news(news_data)` (lines 171-191): stage 2, the prior
stage output is the context. -/
def analyze_and_rank_news (env : Env) (news_data : String) : String :=
  (create_search_agent env rankQuery news_data).final

/-- `create_detailed_summaries(ranked_news)` (lines 194-212): stage 3, the
prior stage output is the context. -/
def create_detailed_summaries (env : Env) (ranked_news : String) : String :=
  (create_search_agent env detailedQuery ranked_news).final

/-- One stage invocation as `main` performs it: the query and context
passed to `create_search_agent` and the output text returned. -/
structure StageCall where
  query : String
  context : String
  output : String
deriving DecidableEq

/-- The three stage invocations of `main` (lines 313-321) in execution
order. -/
def pipelineStages (env : Env) : List StageCall :=
  let news_data := gather_techcrunch_news env
  let ranked_news := analyze_and_rank_news env news_data
  let detailed_summaries := create_detailed_summaries env ranked_news
  [⟨gatherQuery, gatherContext, news_data⟩,
   ⟨rankQuery, news_data, ranked_news⟩,
   ⟨detailedQuery, ranked_news, detailed_summaries⟩]

/-- `main` (lines 300-337) up to the renderer element list: run Gather,
Rank, Elaborate in order and hand only the last output to
`generate_pdf_report` (parameterised by the current date string). -/
def main_pipeline (env : Env) (today : String) : List DocElement :=
  let news_data := gather_techcrunch_news env
  let ranked_news := analyze_and_rank_news env news_data
  let detailed_summaries := create_detailed_summaries env ranked_news
  generate_pdf_elements today detailed_summaries

/-- C6: `main` invokes exactly the stages Gather, Rank, Elaborate in that
order; the Rank context equals the Gather output verbatim and the
Elaborate context equals the Rank output verbatim; each stage output is
the final agent text on that query/context; and only the Elaborate output
reaches the document renderer. -/
theorem main_pipeline_stage_order (env : Env) (today : String) :
    ∃ g r e : StageCall,
      pipelineStages env = [g, r, e] ∧
      g.query = gatherQuery ∧ g.context = gatherContext ∧
      r.query = rankQuery ∧ e.query = detailedQuery ∧
      r.context = g.output ∧ e.context = r.output ∧
      g.output = (create_search_agent env g.query g.context).final ∧
      r.output = (create_search_agent env r.query r.context).final ∧
      e.output = (create_search_agent env e.query e.context).final ∧
      main_pipeline env today = generate_pdf_elements today e.output := by
  exact ⟨_, _, _, rfl, rfl, rfl, rfl, rfl, rfl, rfl, rfl, rfl, rfl, rfl⟩

/-- The `ValueError` text raised at line 30. -/
def required_key_error : String := "OLLAMA_API_KEY environment variable is required"

/-- The program as a function of the process environment (module start-up,
lines 24-33, then `main()` at line 342): `os.getenv` of `OLLAMA_API_KEY`
absent or empty (both falsy under `if not OLLAMA_API_KEY`) raises
`ValueError` before the client is built and before any stage runs;
otherwise the pipeline runs against the collaborators `env`. -/
def run_program (getenv : String → Option String) (env : Env) (today : String) :
    Except String (List DocElement) :=
  match getenv "OLLAMA_API_KEY" with
  | none => Except.error required_key_error
  | some key =>
    if key = "" then Except.error required_key_error
    else Except.ok (main_pipeline env today)

/-- C9: with the credential absent (or empty, equally falsy) the program
terminates with the fatal configuration error, and its result does not
depend on the chat/tool collaborators at all — the pipeline is never
invoked and no network interaction occurs. -/
theorem missing_credential_fail_fast (getenv : String → Option String)
    (h : getenv "OLLAMA_API_KEY" = none ∨ getenv "OLLAMA_API_KEY" = some "") :
    ∀ (env env' : Env) (today : String),
      run_program getenv env today = Except.error required_key_error ∧
      run_program getenv env today = run_program getenv env' today := by
  intro env env' today
  rcases h with h | h <;> simp [run_program, h]

/-- An inert collaborator environment. -/
def plainEnv : Env where
  chat := fun _ => ⟨"assistant", "", []⟩
  web_search := fun _ => Except.ok ""
  web_fetch := fun _ => Except.ok ""

/-- C9 witness: the fail-fast theorem applied to an environment table with
no `OLLAMA_API_KEY` entry, the hypothesis discharged concretely. -/
theorem missing_credential_fail_fast_witness :
    ((fun _ => (none : Option String)) "OLLAMA_API_KEY" = none ∨
     (fun _ => (none : Option String)) "OLLAMA_API_KEY" = some "") ∧
    (run_program (fun _ => none) plainEnv "2026-10-12" = Except.error required_key_error ∧
     run_program (fun _ => none) plainEnv "2026-10-12" =
       run_program (fun _ => none) plainEnv "2026-10-12") :=
  ⟨Or.inl rfl,
   missing_credential_fail_fast (fun _ => none) (Or.inl rfl) plainEnv plainEnv "2026-10-12"⟩

